import Mathlib

/-!
Shallow embedding of the auth/session/progress core of `src/server.js`
(an Express backend for a narrative game). Pure request handlers are
modelled as Lean functions from a database state and request data to an
HTTP response and a new database state. External collaborators (the
jsonwebtoken library, bcrypt, PostgreSQL) are modelled at their
boundary, faithful to how the source calls them.
-/

namespace GameServer

/-- A JSON value, used to model Express response bodies
(`res.json(...)`). Arrays are not needed by the modelled endpoints. -/
inductive Json where
  | str : String → Json
  | num : Int → Json
  | null : Json
  | obj : List (String × Json) → Json
deriving Repr

mutual

/-- `j.mentions s` holds when the string `s` occurs as a string value
somewhere (at any depth) in the JSON value `j`. Used to state that a
secret does or does not appear anywhere in a response body. -/
def Json.mentions (s : String) : Json → Bool
  | .str t => t == s
  | .num _ => false
  | .null => false
  | .obj fs => Json.mentionsFields s fs

/-- `mentions` over the field list of a JSON object. -/
def Json.mentionsFields (s : String) : List (String × Json) → Bool
  | [] => false
  | (_, v) :: fs => v.mentions s || Json.mentionsFields s fs

end

/-- An HTTP response: status code and JSON body, as produced by
`res.status(...).json(...)` (`res.json` alone means status 200). -/
structure HttpResponse where
  status : Nat
  body : Json
deriving Repr

/-- Decoded JWT payload. The source signs `\x7b userId, username \x7d`
with no `expiresIn` option; the jsonwebtoken library adds an `iat`
(issued-at) claim automatically and adds an `exp` claim only when an
expiry is requested, so `exp` is optional. -/
structure JwtPayload where
  userId : Nat
  username : String
  iat : Nat
  exp : Option Nat
deriving Repr, DecidableEq

/-- Model of the HMAC the jsonwebtoken library computes over the payload
with the server secret: an injective encoding of (secret, payload).
Treated as a black box; only equality of MACs matters. -/
def jwtMac (secret : String) (p : JwtPayload) : String :=
  "hmac(" ++ secret ++ "|" ++ toString p.userId ++ "|" ++ p.username ++ "|"
    ++ toString p.iat ++ "|"
    ++ (match p.exp with | none => "-" | some e => toString e) ++ ")"

/-- A JWT: payload plus signature. A token whose `sig` is not the MAC of
its payload under the server secret is structurally invalid. -/
structure Token where
  payload : JwtPayload
  sig : String
deriving Repr, DecidableEq

/-- `jwt.sign(\x7b userId: ..., username: ... \x7d, SECRET_KEY)` as called at
sign-up (line 79) and login (line 108): no `expiresIn`, so the token
carries no `exp` claim; `iat` is the current time. -/
def jwtSign (secret : String) (userId : Nat) (username : String) (now : Nat) : Token :=
  let p : JwtPayload := { userId := userId, username := username, iat := now, exp := none }
  { payload := p, sig := jwtMac secret p }

/-- Failure modes of `jwt.verify`: `JsonWebTokenError` for a malformed or
badly signed token, `TokenExpiredError` when the `exp` claim is in the
past. -/
inductive JwtError where
  | invalid
  | expired
deriving Repr, DecidableEq

/-- `jwt.verify(token, SECRET_KEY)` at current time `now`: checks the
signature, then rejects as expired when an `exp` claim is present and
`now` has reached it. A token without `exp` never expires. -/
def jwtVerify (secret : String) (t : Token) (now : Nat) : Except JwtError JwtPayload :=
  if t.sig = jwtMac secret t.payload then
    match t.payload.exp with
    | some e => if e ≤ now then .error .expired else .ok t.payload
    | none => .ok t.payload
  else .error .invalid

/-- Model of `bcrypt.hash(password, 10)`: a one-way function treated as
an injective black box (the salt does not matter for the model because
only `bcryptCompare` consumes hashes). -/
def bcryptHash (password : String) : String :=
  "bcrypt(" ++ password ++ ")"

/-- Model of `bcrypt.compare(password, hash)`: true exactly when the
hash was produced from the password. -/
def bcryptCompare (password hash : String) : Bool :=
  hash == bcryptHash password

/-- The identity the Request Gate attaches to the request
(`req.user = \x7b userId, username \x7d`, lines 44-47). -/
structure Identity where
  userId : Nat
  username : String
deriving Repr, DecidableEq

/-- Outcome of the `authenticateUser` middleware. -/
inductive GateResult where
  | ok : Identity → GateResult
  | tokenExpired : GateResult
  | unauthorized : GateResult
deriving Repr, DecidableEq

/-- The `authenticateUser` middleware (lines 39-58). The Authorization
header is modelled post-parsing: `none` when the header is absent (the
`.split` call then throws, caught as Unauthorized); `some none` when the
second space-separated segment is not a decodable JWT (`jwt.verify`
throws `JsonWebTokenError`, caught as Unauthorized); `some (some t)`
when it decodes to the token `t`. The middleware then runs `jwt.verify`
only: it issues no database query. -/
def authenticateUser (secret : String) (authHeader : Option (Option Token)) (now : Nat) :
    GateResult :=
  match authHeader with
  | none => .unauthorized
  | some none => .unauthorized
  | some (some t) =>
    match jwtVerify secret t now with
    | .ok p => .ok { userId := p.userId, username := p.username }
    | .error .expired => .tokenExpired
    | .error .invalid => .unauthorized

/-- A row of the `users` table. Columns as used by the source:
`id, username, password_hash, adventurer_name, token`. -/
structure UserRow where
  id : Nat
  username : String
  password_hash : String
  adventurer_name : String
  token : Option Token
deriving Repr, DecidableEq

/-- A row of the `user_progress` table. -/
structure ProgressRow where
  id : Nat
  user_id : Nat
  story_id : Nat
  chapter_id : Nat
  game_state : String
  inventory : String
  save_name : String
deriving Repr, DecidableEq

/-- The persistent state: the two mutable tables and their id
sequences (`id` columns are generated by an increasing sequence, so a
row created later has a larger id; creation order is id order). -/
structure DB where
  users : List UserRow
  user_progress : List ProgressRow
  nextUserId : Nat
  nextProgressId : Nat
deriving Repr, DecidableEq

/-- The `authenticateUser` middleware as it runs inside the server: the
connection pool (the database state) is in scope for every handler, but
the middleware body issues no query, so the state parameter is unused.
Exposing it lets us state that the gate decision is independent of the
stored state. -/
def runGate (secret : String) (authHeader : Option (Option Token)) (now : Nat) (db : DB) :
    GateResult :=
  authenticateUser secret authHeader now

/-- Serialization of a token into the strings placed in response bodies
(the compact JWS form); injective encoding, content irrelevant to the
claims beyond not colliding with other strings at the inputs used. -/
def tokenString (t : Token) : String :=
  toString t.payload.userId ++ "." ++ t.payload.username ++ "."
    ++ toString t.payload.iat ++ "."
    ++ (match t.payload.exp with | none => "-" | some e => toString e)
    ++ "#" ++ t.sig

/-- The PostgreSQL unique-violation message raised by the `INSERT INTO
users` when the username already exists (the `users` table has a unique
constraint on `username`). Model of the external persistence error; the
property of interest is only where this internal text flows. -/
def duplicateKeyMessage : String :=
  "duplicate key value violates unique constraint users_username_key"

/-- Response produced by the generic error handler (lines 266-274) for
an error with no `status` field (a PostgreSQL error): status 500, body
`\x7b error: \x7b message, status \x7d \x7d` with `message` the raw error message. -/
def genericErrorResponse (message : String) : HttpResponse :=
  { status := 500,
    body := .obj [("error", .obj [("message", .str message), ("status", .num 500)])] }

/-- `POST /sign-up` (lines 64-87): hash the password, INSERT the user
(unique violation on an existing username propagates through
`next(err)` to the generic error handler), sign a token, store it on
the user row, and answer `\x7b user: \x7b user: \x7b id, username,
adventurer_name \x7d, token \x7d \x7d` (the RETURNING clause omits the
password hash). -/
def signUp (secret : String) (now : Nat) (db : DB)
    (username password adventurerName : String) : HttpResponse × DB :=
  let hashed := bcryptHash password
  if db.users.any (fun r => r.username == username) then
    (genericErrorResponse duplicateKeyMessage, db)
  else
    let user : UserRow :=
      { id := db.nextUserId, username := username, password_hash := hashed,
        adventurer_name := adventurerName, token := none }
    let token := jwtSign secret user.id user.username now
    let users' := (db.users ++ [user]).map
      (fun r => if r.id == user.id then { r with token := some token } else r)
    ({ status := 200,
       body := .obj [("user", .obj
         [("user", .obj [("id", .num user.id), ("username", .str username),
                         ("adventurer_name", .str adventurerName)]),
          ("token", .str (tokenString token))])] },
     { db with users := users', nextUserId := db.nextUserId + 1 })

/-- `POST /login` (lines 89-118): look the user up by username (SELECT *),
answer 401 with a fixed body when the user is absent or the password
does not match, otherwise sign and store a new token and answer
`\x7b user: \x7b ...user, token: newToken \x7d \x7d` — the spread of the full row
includes every column of `users`, `password_hash` included, with the
`token` column overridden by the new token. -/
def login (secret : String) (now : Nat) (db : DB)
    (username password : String) : HttpResponse × DB :=
  match db.users.find? (fun r => r.username == username) with
  | none =>
    ({ status := 401, body := .obj [("error", .str "Invalid username or password")] }, db)
  | some user =>
    if bcryptCompare password user.password_hash then
      let newToken := jwtSign secret user.id user.username now
      let users' := db.users.map
        (fun r => if r.id == user.id then { r with token := some newToken } else r)
      ({ status := 200,
         body := .obj [("user", .obj
           [("id", .num user.id), ("username", .str user.username),
            ("password_hash", .str user.password_hash),
            ("adventurer_name", .str user.adventurer_name),
            ("token", .str (tokenString newToken))])] },
       { db with users := users' })
    else
      ({ status := 401, body := .obj [("error", .str "Invalid username or password")] }, db)

/-- Composition of the `authenticateUser` middleware with a route
handler, as in `app.post(path, authenticateUser, handler)`: on gate
failure the 401 response is sent and the handler never runs. -/
def protectedRoute (secret : String) (authHeader : Option (Option Token)) (now : Nat)
    (db : DB) (handler : Identity → DB → HttpResponse × DB) : HttpResponse × DB :=
  match authenticateUser secret authHeader now with
  | .ok ident => handler ident db
  | .tokenExpired =>
    ({ status := 401, body := .obj [("error", .str "Token expired")] }, db)
  | .unauthorized =>
    ({ status := 401, body := .obj [("error", .str "Unauthorized")] }, db)

/-- `POST /logout` (lines 121-131): clear the token column of the
authenticated user row. -/
def logout (secret : String) (authHeader : Option (Option Token)) (now : Nat)
    (db : DB) : HttpResponse × DB :=
  protectedRoute secret authHeader now db fun ident db =>
    let users' := db.users.map
      (fun r => if r.id == ident.userId then { r with token := none } else r)
    ({ status := 200, body := .obj [("message", .str "Logout successful")] },
     { db with users := users' })

/-- `POST /save-progress` (lines 184-199): the handler destructures
`userId` from `req.body` — not from `req.user` — and INSERTs a new
`user_progress` row with that client-supplied value as `user_id`. -/
def saveProgress (secret : String) (authHeader : Option (Option Token)) (now : Nat)
    (db : DB) (bodyUserId storyId chapterId : Nat)
    (gameState inventory saveName : String) : HttpResponse × DB :=
  protectedRoute secret authHeader now db fun _ident db =>
    let row : ProgressRow :=
      { id := db.nextProgressId, user_id := bodyUserId, story_id := storyId,
        chapter_id := chapterId, game_state := gameState, inventory := inventory,
        save_name := saveName }
    ({ status := 200,
       body := .obj [("savedProgress", .obj
         [("id", .num row.id), ("save_name", .str saveName)])] },
     { db with user_progress := db.user_progress ++ [row],
               nextProgressId := db.nextProgressId + 1 })

/-- `SELECT * FROM user_progress WHERE user_id = $1 ORDER BY id DESC
LIMIT 1` on an already-filtered row list: the row with the greatest id,
`none` on an empty list. -/
def latestRow : List ProgressRow → Option ProgressRow
  | [] => none
  | r :: rs =>
    match latestRow rs with
    | none => some r
    | some b => if b.id ≤ r.id then some r else some b

/-- All columns of a progress row as returned by `SELECT *`. -/
def progressJson (r : ProgressRow) : Json :=
  .obj [("id", .num r.id), ("user_id", .num r.user_id),
        ("story_id", .num r.story_id), ("chapter_id", .num r.chapter_id),
        ("game_state", .str r.game_state), ("inventory", .str r.inventory),
        ("save_name", .str r.save_name)]

/-- `GET /load-progress` (lines 201-219): the single most recent (highest
id) row of the authenticated user, 404 when that user has none. -/
def loadProgress (secret : String) (authHeader : Option (Option Token)) (now : Nat)
    (db : DB) : HttpResponse × DB :=
  protectedRoute secret authHeader now db fun ident db =>
    match latestRow (db.user_progress.filter (fun r => r.user_id == ident.userId)) with
    | none =>
      ({ status := 404, body := .obj [("error", .str "No saved game found.")] }, db)
    | some r =>
      ({ status := 200, body := .obj [("savedGameData", progressJson r)] }, db)

/-- `DELETE /delete-progress/:progressId` (lines 221-240): one `DELETE ...
WHERE id = $1 AND user_id = $2 RETURNING ...` statement; when it returns
anything other than exactly one row the handler answers 404 (the DELETE
has already run — with zero matches nothing was removed). -/
def deleteProgress (secret : String) (authHeader : Option (Option Token)) (now : Nat)
    (db : DB) (progressId : Nat) : HttpResponse × DB :=
  protectedRoute secret authHeader now db fun ident db =>
    let deleted := db.user_progress.filter
      (fun r => r.id == progressId && r.user_id == ident.userId)
    let remaining := db.user_progress.filter
      (fun r => !(r.id == progressId && r.user_id == ident.userId))
    let db' := { db with user_progress := remaining }
    if deleted.length == 1 then
      ({ status := 200,
         body := .obj [("message", .str "Saved game deleted successfully.")] }, db')
    else
      ({ status := 404,
         body := .obj [("error", .str "Saved game not found or unauthorized to delete.")] },
       db')

/-- `POST /update-player` (lines 242-256): `UPDATE users SET
adventurer_name = $1 WHERE id = $2` with the authenticated user id. -/
def updatePlayer (secret : String) (authHeader : Option (Option Token)) (now : Nat)
    (db : DB) (newAdventurerName : String) : HttpResponse × DB :=
  protectedRoute secret authHeader now db fun ident db =>
    let users' := db.users.map
      (fun r => if r.id == ident.userId then { r with adventurer_name := newAdventurerName }
                else r)
    ({ status := 200,
       body := .obj [("message", .str "Saved Adventurer Name successfully.")] },
     { db with users := users' })

/-! ### Lemmas about `latestRow` (the ORDER BY id DESC LIMIT 1 selection) -/

theorem latestRow_isSome (r : ProgressRow) (rs : List ProgressRow) :
    (latestRow (r :: rs)).isSome := by
  unfold latestRow
  cases latestRow rs with
  | none => rfl
  | some b => by_cases hb : b.id ≤ r.id <;> simp [hb]

theorem latestRow_eq_none {l : List ProgressRow} : latestRow l = none ↔ l = [] := by
  cases l with
  | nil => simp [latestRow]
  | cons r rs =>
    constructor
    · intro h
      have hs := latestRow_isSome r rs
      rw [h] at hs
      simp at hs
    · intro h
      cases h

theorem latestRow_mem {l : List ProgressRow} {r : ProgressRow}
    (h : latestRow l = some r) : r ∈ l := by
  induction l with
  | nil => cases h
  | cons a rs ih =>
    unfold latestRow at h
    split at h
    · injection h with h
      subst h
      exact List.mem_cons_self a rs
    · split at h
      · injection h with h
        subst h
        exact List.mem_cons_self a rs
      · injection h with h
        subst h
        exact List.mem_cons_of_mem a (ih (by assumption))

theorem latestRow_max {l : List ProgressRow} :
    ∀ {r : ProgressRow}, latestRow l = some r → ∀ x ∈ l, x.id ≤ r.id := by
  induction l with
  | nil => intro r h x hx; cases hx
  | cons a rs ih =>
    intro r h x hx
    unfold latestRow at h
    split at h
    case h_1 hl =>
      injection h with h
      subst h
      rcases List.mem_cons.mp hx with hxa | hxs
      · subst hxa; exact Nat.le_refl _
      · rw [latestRow_eq_none.mp hl] at hxs
        cases hxs
    case h_2 b hl =>
      rcases List.mem_cons.mp hx with hxa | hxs
      · subst hxa
        split at h
        · injection h with h; subst h; exact Nat.le_refl _
        · injection h with h; subst h
          exact le_of_not_le (by assumption)
      · split at h
        · injection h with h; subst h
          exact Nat.le_trans (ih hl x hxs) (by assumption)
        · injection h with h; subst h
          exact ih hl x hxs

/-! ### Concrete scenario states used to evaluate the handlers -/

/-- The server signing secret (`SECRET_KEY`) for the concrete scenarios. -/
def secretK : String := "server-secret"

/-- Empty initial database: no users, no saves, id sequences at 1. -/
def db0 : DB :=
  { users := [], user_progress := [], nextUserId := 1, nextProgressId := 1 }

/-- The token sign-up issues for the first user (id 1, astra) at time 0. -/
def tokC1 : Token := jwtSign secretK 1 "astra" 0

/-- State after `sign-up(astra, pw1, Zel)` at time 0 on the empty database. -/
def dbAfterSignup : DB := (signUp secretK 0 db0 "astra" "pw1" "Zel").2

/-- State after `logout` at time 1 with the sign-up token: the stored
token column is cleared. -/
def dbAfterLogout : DB := (logout secretK (some (some tokC1)) 1 dbAfterSignup).2

/-- The alice user row of the two-user scenario. -/
def aliceRow : UserRow :=
  { id := 1, username := "alice", password_hash := bcryptHash "pa",
    adventurer_name := "A", token := some (jwtSign secretK 1 "alice" 0) }

/-- The bob user row of the two-user scenario. -/
def bobRow : UserRow :=
  { id := 2, username := "bob", password_hash := bcryptHash "pb",
    adventurer_name := "B", token := some (jwtSign secretK 2 "bob" 0) }

/-- A valid, unexpired token for alice (user id 1). -/
def tokAlice : Token := jwtSign secretK 1 "alice" 0

/-- Two-user database with no saved progress. -/
def dbAB : DB :=
  { users := [aliceRow, bobRow], user_progress := [],
    nextUserId := 3, nextProgressId := 1 }

/-- A progress row owned by bob (user id 2). -/
def bobSave : ProgressRow :=
  { id := 1, user_id := 2, story_id := 1, chapter_id := 1,
    game_state := "gsB", inventory := "invB", save_name := "bobs-slot" }

/-- Two-user database where only bob has a saved game. -/
def dbC5 : DB :=
  { users := [aliceRow, bobRow], user_progress := [bobSave],
    nextUserId := 3, nextProgressId := 2 }

/-- First save of alice (id 1). -/
def save1 : ProgressRow :=
  { id := 1, user_id := 1, story_id := 1, chapter_id := 1,
    game_state := "g1", inventory := "i1", save_name := "slot1" }

/-- Second save of alice (id 2, created later). -/
def save2 : ProgressRow :=
  { id := 2, user_id := 1, story_id := 1, chapter_id := 2,
    game_state := "g2", inventory := "i2", save_name := "slot2" }

/-- A save of bob created after both alice saves (id 3). -/
def bobLaterSave : ProgressRow :=
  { id := 3, user_id := 2, story_id := 1, chapter_id := 1,
    game_state := "g3", inventory := "i3", save_name := "bob-slot" }

/-- Two-user database where alice owns saves 1 and 2 and bob owns
save 3. -/
def dbC8 : DB :=
  { users := [aliceRow, bobRow], user_progress := [save1, save2, bobLaterSave],
    nextUserId := 3, nextProgressId := 4 }

/-- A syntactically valid token carrying an expiry claim already in the
past at time 9 (exp = 5); no endpoint of the server issues such a token,
but the gate can receive one. -/
def tokExp : Token :=
  let p : JwtPayload := { userId := 1, username := "alice", iat := 0, exp := some 5 }
  { payload := p, sig := jwtMac secretK p }

/-! ### Claim theorems -/

/-- C1: the claim says the Request Gate accepts a token iff it is
well-formed, unexpired AND equal to the token stored on the user row, so
that logout or re-login revokes older tokens. The code contradicts this:
`authenticateUser` runs `jwt.verify` only and never consults the stored
token. Concretely: after sign-up issues a token and logout clears the
stored token column, a request presenting the old token is still
accepted by the gate (and reaches business logic — load-progress answers
404, not 401); likewise after a re-login stores a different token, the
gate still accepts the superseded one. -/
theorem request_gate_skips_revocation_check :
    dbAfterLogout.users.map (fun r => r.token) = [none]
    ∧ authenticateUser secretK (some (some tokC1)) 2 = .ok ⟨1, "astra"⟩
    ∧ (loadProgress secretK (some (some tokC1)) 2 dbAfterLogout).1.status = 404
    ∧ (login secretK 3 dbAfterSignup "astra" "pw1").2.users.map (fun r => r.token)
        = [some (jwtSign secretK 1 "astra" 3)]
    ∧ jwtSign secretK 1 "astra" 3 ≠ tokC1
    ∧ authenticateUser secretK (some (some tokC1)) 4 = .ok ⟨1, "astra"⟩ := by
  refine ⟨rfl, rfl, rfl, rfl, by decide, rfl⟩

/-- C2: the claim says the created SavedProgress row always has
`user_id` equal to the authenticated identity, never a client-supplied
value. The code contradicts this: the handler reads `userId` from
`req.body`. Concretely: a request authenticated as alice (user id 1)
whose body carries `userId = 2` creates a row owned by user 2. -/
theorem save_progress_trusts_body_user_id :
    authenticateUser secretK (some (some tokAlice)) 1 = .ok ⟨1, "alice"⟩
    ∧ (saveProgress secretK (some (some tokAlice)) 1 dbAB 2 7 3 "gs" "inv" "slot1").2.user_progress
        = [{ id := 1, user_id := 2, story_id := 7, chapter_id := 3,
             game_state := "gs", inventory := "inv", save_name := "slot1" }]
    ∧ (2 : Nat) ≠ 1 := by
  refine ⟨rfl, rfl, by decide⟩

/-- C3: the claim says no successful sign-up or login response contains
the stored password hash. The code contradicts this for login: the
handler spreads the full `SELECT *` row into the body, `password_hash`
included. Concretely: a successful login for alice answers 200 with a
body in which the stored hash occurs; the sign-up response (whose
RETURNING clause omits the hash) does not contain it. -/
theorem login_response_contains_password_hash :
    (login secretK 1 dbAB "alice" "pa").1.status = 200
    ∧ (login secretK 1 dbAB "alice" "pa").1.body.mentions (bcryptHash "pa") = true
    ∧ (signUp secretK 0 db0 "astra" "pw1" "Zel").1.body.mentions (bcryptHash "pw1") = false := by
  refine ⟨rfl, by decide, by decide⟩

/-- C4 counterexample: the claim says every token issued at sign-up or
login carries an expiry. `jwt.sign` is called with no `expiresIn`, so
the token sign-up stores for astra carries no `exp` claim and the gate
accepts it at an arbitrarily late time instead of rejecting it as
expired. -/
theorem issued_token_carries_no_expiry :
    (jwtSign secretK 1 "astra" 0).payload.exp = none
    ∧ dbAfterSignup.users.map (fun r => r.token) = [some tokC1]
    ∧ jwtVerify secretK tokC1 1000000000000 = .ok tokC1.payload
    ∧ authenticateUser secretK (some (some tokC1)) 1000000000000 = .ok ⟨1, "astra"⟩ := by
  refine ⟨rfl, rfl, rfl, rfl⟩

/-- Helper: `jwt.verify` reports expiry only for a token that actually
carries an `exp` claim that has passed. -/
theorem jwtVerify_expired_iff_past_exp {secret : String} {t : Token} {now : Nat}
    (h : jwtVerify secret t now = .error .expired) :
    ∃ e, t.payload.exp = some e ∧ e ≤ now := by
  unfold jwtVerify at h
  split at h
  · split at h
    case h_1 e he =>
      split at h
      · exact ⟨e, he, by assumption⟩
      · cases h
    case h_2 => cases h
  · cases h

/-- C4 (amended): tokens issued at sign-up and login (`jwt.sign` without
`expiresIn`) carry no expiry claim and pass the gate at every time; the
gate answers its token-expired response only for a token that carries an
expiry claim that has passed — no token the server issues is ever
rejected as expired. -/
theorem gate_expiry_behavior (secret : String) (uid : Nat) (uname : String)
    (issuedAt now : Nat) (t : Token) :
    authenticateUser secret (some (some (jwtSign secret uid uname issuedAt))) now
      = .ok ⟨uid, uname⟩
    ∧ (authenticateUser secret (some (some t)) now = .tokenExpired →
        ∃ e, t.payload.exp = some e ∧ e ≤ now) := by
  constructor
  · simp [authenticateUser, jwtVerify, jwtSign]
  · intro h
    rcases hv : jwtVerify secret t now with err | q
    · cases err with
      | invalid =>
        exfalso
        unfold authenticateUser at h
        simp [hv] at h
      | expired => exact jwtVerify_expired_iff_past_exp hv
    · exfalso
      unfold authenticateUser at h
      simp [hv] at h

/-- C4 (amended) witness: at the concrete inputs, the token issued for
astra at time 0 passes the gate at time 9, and the token-expired
hypothesis is discharged with the concrete expired token `tokExp`
(exp = 5 ≤ 9). -/
theorem gate_expiry_behavior_witness :
    authenticateUser secretK (some (some (jwtSign secretK 1 "astra" 0))) 9
      = .ok ⟨1, "astra"⟩
    ∧ ∃ e, tokExp.payload.exp = some e ∧ e ≤ 9 :=
  ⟨(gate_expiry_behavior secretK 1 "astra" 0 9 tokExp).1,
   (gate_expiry_behavior secretK 1 "astra" 0 9 tokExp).2 (by decide)⟩

/-- C5: the delete predicate itself encodes the ownership check (the one
DELETE statement matches `id = progressId AND user_id = caller`): every
row that survives is a row of the original table, any row not matching
both conditions survives, and whenever no row matches both — the id does
not exist or the row belongs to a different owner, indistinguishably —
the handler answers the fixed 404 response and the table is unchanged. -/
theorem delete_progress_owner_scoped (secret : String) (h : Option (Option Token))
    (now : Nat) (db : DB) (pid : Nat) (ident : Identity)
    (hgate : authenticateUser secret h now = .ok ident) :
    (∀ r ∈ db.user_progress, ¬(r.id = pid ∧ r.user_id = ident.userId) →
       r ∈ (deleteProgress secret h now db pid).2.user_progress)
    ∧ (∀ r ∈ (deleteProgress secret h now db pid).2.user_progress, r ∈ db.user_progress)
    ∧ ((∀ r ∈ db.user_progress, ¬(r.id = pid ∧ r.user_id = ident.userId)) →
        deleteProgress secret h now db pid
          = ({ status := 404,
               body := .obj [("error",
                 .str "Saved game not found or unauthorized to delete.")] },
             db)) := by
  have hred : deleteProgress secret h now db pid =
      (if (db.user_progress.filter
            (fun r => r.id == pid && r.user_id == ident.userId)).length == 1 then
         ({ status := 200,
            body := .obj [("message", .str "Saved game deleted successfully.")] },
          { db with user_progress := (db.user_progress.filter
              (fun r => !(r.id == pid && r.user_id == ident.userId))) })
       else
         ({ status := 404,
            body := .obj [("error",
              .str "Saved game not found or unauthorized to delete.")] },
          { db with user_progress := (db.user_progress.filter
              (fun r => !(r.id == pid && r.user_id == ident.userId))) })) := by
    unfold deleteProgress protectedRoute
    rw [hgate]
  have hsnd : (deleteProgress secret h now db pid).2
      = { db with user_progress := (db.user_progress.filter
            (fun r => !(r.id == pid && r.user_id == ident.userId))) } := by
    rw [hred]
    split <;> rfl
  refine ⟨?_, ?_, ?_⟩
  · intro r hr hno
    rw [hsnd]
    refine List.mem_filter.mpr ⟨hr, ?_⟩
    rcases Decidable.em (r.id = pid) with hp | hp
    · rcases Decidable.em (r.user_id = ident.userId) with hu | hu
      · exact absurd ⟨hp, hu⟩ hno
      · simp [beq_iff_eq, hu]
    · simp [beq_iff_eq, hp]
  · intro r hr
    rw [hsnd] at hr
    exact List.mem_of_mem_filter hr
  · intro hall
    have hdel : db.user_progress.filter
        (fun r => r.id == pid && r.user_id == ident.userId) = [] := by
      apply List.filter_eq_nil_iff.mpr
      intro a ha
      have hno := hall a ha
      simp only [beq_iff_eq, Bool.and_eq_true, not_and]
      intro hp hu
      exact hno ⟨hp, hu⟩
    have hrem : db.user_progress.filter
        (fun r => !(r.id == pid && r.user_id == ident.userId)) = db.user_progress := by
      apply List.filter_eq_self.mpr
      intro a ha
      have hno := hall a ha
      simp only [beq_iff_eq, Bool.not_eq_true', Bool.and_eq_true]
      rcases Decidable.em (a.id = pid) with hp | hp
      · rcases Decidable.em (a.user_id = ident.userId) with hu | hu
        · exact absurd ⟨hp, hu⟩ hno
        · simp [hu]
      · simp [hp]
    rw [hred, hdel, hrem]
    rfl

/-- C5 witness: alice (user id 1), authenticated with her own valid
token, deletes progress id 1 — which exists but belongs to bob — and
gets the 404 response with the database unchanged, bob row included. -/
theorem delete_progress_owner_scoped_witness :
    deleteProgress secretK (some (some tokAlice)) 1 dbC5 1
      = ({ status := 404,
           body := .obj [("error",
             .str "Saved game not found or unauthorized to delete.")] },
         dbC5) :=
  (delete_progress_owner_scoped secretK (some (some tokAlice)) 1 dbC5 1
    ⟨1, "alice"⟩ rfl).2.2 (by decide)

/-- C6: every failing login answers the same fixed response — status 401
with body error "Invalid username or password" — whether the username
does not exist (h1) or the password is wrong (h2, h3), and the state is
unchanged in both cases. -/
theorem login_failure_indistinguishable (secret : String) (now1 now2 : Nat) (db : DB)
    (u1 p1 u2 p2 : String) (row : UserRow)
    (h1 : db.users.find? (fun r => r.username == u1) = none)
    (h2 : db.users.find? (fun r => r.username == u2) = some row)
    (h3 : bcryptCompare p2 row.password_hash = false) :
    login secret now1 db u1 p1
      = ({ status := 401, body := .obj [("error", .str "Invalid username or password")] }, db)
    ∧ login secret now2 db u2 p2
      = ({ status := 401, body := .obj [("error", .str "Invalid username or password")] }, db) := by
  constructor
  · unfold login
    rw [h1]
  · unfold login
    rw [h2]
    simp [h3]

/-- C6 witness: on the two-user database, a login with an unknown
username and a login for alice with a wrong password produce the
identical 401 response. -/
theorem login_failure_indistinguishable_witness :
    login secretK 0 dbAB "nobody" "x"
      = ({ status := 401, body := .obj [("error", .str "Invalid username or password")] }, dbAB)
    ∧ login secretK 0 dbAB "alice" "wrong"
      = ({ status := 401, body := .obj [("error", .str "Invalid username or password")] }, dbAB) :=
  login_failure_indistinguishable secretK 0 0 dbAB "nobody" "x" "alice" "wrong"
    aliceRow rfl rfl (by decide)

/-- C7 counterexample: the claim says a duplicate-username sign-up is
surfaced with no internal detail and in particular no message text from
the duplicate-key failure; but on the two-user database a sign-up re-using
the name alice answers 500 with a body that contains the persistence
duplicate-key message verbatim. -/
theorem duplicate_signup_leaks_db_error :
    (signUp secretK 1 dbAB "alice" "pw9" "X").1.status = 500
    ∧ (signUp secretK 1 dbAB "alice" "pw9" "X").1.body.mentions duplicateKeyMessage = true := by
  refine ⟨rfl, by decide⟩

/-- C7 (amended): a sign-up with an already-existing username fails and
reaches the generic error handler, which answers status 500 with body
error.message equal to the underlying duplicate-key message text and
error.status 500 — the message text of the persistence failure is
surfaced to the caller (no stack content is included), and the state is
unchanged. -/
theorem duplicate_signup_response (secret : String) (now : Nat) (db : DB)
    (u p a : String) (hdup : ∃ r ∈ db.users, r.username = u) :
    signUp secret now db u p a = (genericErrorResponse duplicateKeyMessage, db) := by
  have hany : db.users.any (fun r => r.username == u) = true := by
    rcases hdup with ⟨r, hr, hu⟩
    exact List.any_eq_true.mpr ⟨r, hr, by simp [hu]⟩
  simp [signUp, hany]

/-- C7 (amended) witness: the concrete duplicate sign-up for alice
produces exactly the generic-handler response carrying the duplicate-key
message. -/
theorem duplicate_signup_response_witness :
    signUp secretK 1 dbAB "alice" "pw9" "X" = (genericErrorResponse duplicateKeyMessage, dbAB) :=
  duplicate_signup_response secretK 1 dbAB "alice" "pw9" "X" ⟨aliceRow, by decide, rfl⟩

/-- C8: for an authenticated caller, load-progress answers the fixed 404
response when the caller owns no saved progress, and otherwise answers
200 with a save owned by the caller whose id (the creation order — ids
are assigned from an increasing sequence) is maximal among all of the
caller rows; rows of other owners never influence or appear in the
result. -/
theorem load_progress_returns_latest (secret : String) (h : Option (Option Token))
    (now : Nat) (db : DB) (ident : Identity)
    (hgate : authenticateUser secret h now = .ok ident) :
    ((∀ r ∈ db.user_progress, r.user_id ≠ ident.userId) →
       (loadProgress secret h now db).1
         = { status := 404, body := .obj [("error", .str "No saved game found.")] })
    ∧ (∀ r0 ∈ db.user_progress, r0.user_id = ident.userId →
        ∃ r, (loadProgress secret h now db).1
            = { status := 200, body := .obj [("savedGameData", progressJson r)] }
          ∧ r ∈ db.user_progress ∧ r.user_id = ident.userId
          ∧ ∀ x ∈ db.user_progress, x.user_id = ident.userId → x.id ≤ r.id) := by
  have hred : loadProgress secret h now db =
      (match latestRow (db.user_progress.filter (fun r => r.user_id == ident.userId)) with
       | none => ({ status := 404, body := .obj [("error", .str "No saved game found.")] }, db)
       | some r => ({ status := 200, body := .obj [("savedGameData", progressJson r)] }, db)) := by
    unfold loadProgress protectedRoute
    rw [hgate]
  constructor
  · intro hall
    have hfilter : db.user_progress.filter (fun r => r.user_id == ident.userId) = [] := by
      apply List.filter_eq_nil_iff.mpr
      intro a ha
      simp only [beq_iff_eq]
      exact hall a ha
    rw [hred, hfilter]
    rfl
  · intro r0 hr0 hown
    have hmem : r0 ∈ db.user_progress.filter (fun r => r.user_id == ident.userId) :=
      List.mem_filter.mpr ⟨hr0, by simp [hown]⟩
    cases hlr : latestRow (db.user_progress.filter (fun r => r.user_id == ident.userId)) with
    | none =>
      rw [latestRow_eq_none.mp hlr] at hmem
      cases hmem
    | some r =>
      refine ⟨r, ?_, ?_, ?_, ?_⟩
      · rw [hred, hlr]
      · exact List.mem_of_mem_filter (latestRow_mem hlr)
      · have h2 := (List.mem_filter.mp (latestRow_mem hlr)).2
        simpa [beq_iff_eq] using h2
      · intro x hx hxo
        exact latestRow_max hlr x (List.mem_filter.mpr ⟨hx, by simp [hxo]⟩)

/-- C8 witness: on a database where alice owns saves with ids 1 and 2
and bob owns a save with id 3, an authenticated load-progress for alice
answers her save of maximal id. -/
theorem load_progress_returns_latest_witness :
    ∃ r, (loadProgress secretK (some (some tokAlice)) 1 dbC8).1
        = { status := 200, body := .obj [("savedGameData", progressJson r)] }
      ∧ r ∈ dbC8.user_progress ∧ r.user_id = (1 : Nat)
      ∧ ∀ x ∈ dbC8.user_progress, x.user_id = (1 : Nat) → x.id ≤ r.id :=
  (load_progress_returns_latest secretK (some (some tokAlice)) 1 dbC8
    ⟨1, "alice"⟩ rfl).2 save1 (by decide) rfl

/-- C9: the Request Gate decision (accept or reject, and the attached
identity) is a function only of the presented Authorization header, the
signing secret and the current time: it is the same for any two database
states — in particular for states in which the stored token on the user
row is set, superseded or cleared — because the middleware issues no
query. -/
theorem gate_decision_stateless (secret : String) (h : Option (Option Token)) (now : Nat)
    (db1 db2 : DB) :
    runGate secret h now db1 = runGate secret h now db2
    ∧ runGate secret h now db1 = authenticateUser secret h now :=
  ⟨rfl, rfl⟩

/-- C10: for an authenticated update-player request the only persisted
change is the adventurer_name column of the caller row: the progress
table and the id sequences are unchanged, the users table is a pointwise
map in which the row of the caller keeps its id, username, password hash
and stored token, and every other row is kept exactly as it was. -/
theorem update_player_frame (secret : String) (h : Option (Option Token)) (now : Nat)
    (db : DB) (newName : String) (ident : Identity)
    (hgate : authenticateUser secret h now = .ok ident) :
    ((updatePlayer secret h now db newName).2.user_progress = db.user_progress)
    ∧ ((updatePlayer secret h now db newName).2.nextUserId = db.nextUserId)
    ∧ ((updatePlayer secret h now db newName).2.nextProgressId = db.nextProgressId)
    ∧ ((updatePlayer secret h now db newName).2.users
        = db.users.map (fun r =>
            if r.id == ident.userId then { r with adventurer_name := newName } else r))
    ∧ ∀ r ∈ db.users,
        (((if r.id == ident.userId then { r with adventurer_name := newName } else r) : UserRow).id
           = r.id)
        ∧ ((if r.id == ident.userId then { r with adventurer_name := newName } else r).username
           = r.username)
        ∧ ((if r.id == ident.userId then { r with adventurer_name := newName } else r).password_hash
           = r.password_hash)
        ∧ ((if r.id == ident.userId then { r with adventurer_name := newName } else r).token
           = r.token)
        ∧ (r.id ≠ ident.userId →
            (if r.id == ident.userId then { r with adventurer_name := newName } else r) = r) := by
  have hred : (updatePlayer secret h now db newName).2
      = { db with users := db.users.map (fun r =>
            if r.id == ident.userId then { r with adventurer_name := newName } else r) } := by
    unfold updatePlayer protectedRoute
    rw [hgate]
  refine ⟨by rw [hred], by rw [hred], by rw [hred], by rw [hred], ?_⟩
  intro r _
  rcases Decidable.em (r.id = ident.userId) with hr | hr
  · simp [hr]
  · simp [hr]

/-- C10 witness: an authenticated update of the alice display name
leaves the progress table unchanged. -/
theorem update_player_frame_witness :
    (updatePlayer secretK (some (some tokAlice)) 1 dbAB "NewName").2.user_progress
      = dbAB.user_progress :=
  (update_player_frame secretK (some (some tokAlice)) 1 dbAB "NewName" ⟨1, "alice"⟩ rfl).1

end GameServer
